import Mathlib

/-!
Verification of the similarity-based routing core of the mood-based yoga
recommendation service (`mood_9.py`).

The embedding follows the source closely:

* `cosine_similarity`, `find_best_asana`, `generate_final_comment`,
  `process_prompt` and `startup_event` are translated function by function.
* External collaborators are explicit parameters: the embedding provider
  (`get_embedding : String → Option Vec`, `none` models every failure caught by
  the source's `try/except` around the HTTP call), the chat provider
  (`Option ChatResponse`), and the PDF renderer (`Option (String × ℚ)`,
  mirroring `generate_pdf_report` returning `(None, 0)` on failure).
* The numeric kernel of `cosine_similarity`
  (`np.dot(v1, v2) / (norm v1 * norm v2)`, evaluated by numpy in IEEE floating
  point) is abstracted as a parameter `sim : Vec → Vec → ℚ`; all of the
  control flow around it — the `None` sentinel, the cache, the
  strictly-greater running maximum, the threshold gate — is modelled exactly.
* The process-wide dictionary `cached_embeddings` is threaded explicitly, and
  provider invocations are counted so that memoisation claims are statable.
-/

namespace Mood

/-- An embedding vector: a fixed-length numeric sequence returned by the
embedding provider. -/
abbrev Vec := List ℚ

/-- The process-wide exemplar-embedding dictionary `cached_embeddings`
(mood_9.py line 393), as an association list from exemplar phrase to vector. -/
abbrev Cache := List (String × Vec)

/-- Dictionary lookup, `cached_embeddings.get(utterance)`. -/
def cacheLookup : Cache → String → Option Vec
  | [], _ => none
  | (k, v) :: rest, u => if u = k then some v else cacheLookup rest u

/-- Catalog entry, class `YogaAsana` (mood_9.py lines 63-72). -/
structure YogaAsana where
  name : String
  utterances : List String
  how_to_do : String
  frequency : String
  timing : String
  dietary : String
  lifestyle : String
  benefits : String
deriving DecidableEq

/-- Configured embedding model (mood_9.py line 42). -/
def EMBED_MODEL : String := "snowflake-arctic-embed:110m"

/-- Configured chat model (mood_9.py line 45). -/
def LLM_MODEL_NAME : String := "qwen2.5:0.5b-instruct"

/-- Configured similarity threshold (mood_9.py line 46). `process_prompt` below
takes the threshold as a parameter; this constant is the configured value. -/
def SIMILARITY_THRESHOLD : ℚ := 0.66

/-- `cosine_similarity` (mood_9.py lines 410-418). The `None` checks of
lines 411-412 are modelled exactly; the floating-point kernel of line 414 is
the abstract parameter `sim`. -/
def cosine_similarity (sim : Vec → Vec → ℚ) : Option Vec → Option Vec → ℚ
  | none, _ => -1
  | _, none => -1
  | some vec1, some vec2 => sim vec1 vec2

/-- The cache consultation inlined in `find_best_asana` (mood_9.py
lines 425-431), which is the spec's `getOrCompute` contract: consult the cache
first; on a miss call the embedding provider and insert the result on success.
The third component counts provider invocations made by this call. -/
def getOrCompute (get_embedding : String → Option Vec) (cache : Cache)
    (utterance : String) : Option Vec × Cache × Nat :=
  match cacheLookup cache utterance with
  | some v => (some v, cache, 0)
  | none =>
      match get_embedding utterance with
      | some v => (some v, (utterance, v) :: cache, 1)
      | none => (none, cache, 1)

/-- Loop state of `find_best_asana`: the running best asana (`best_asana`,
initially `None`), the running maximum (`best_similarity`, initially `-1`),
and the evolving embedding cache. -/
structure MatchState where
  best_asana : Option YogaAsana
  best_similarity : ℚ
  cache : Cache
deriving DecidableEq

/-- Body of the inner loop of `find_best_asana` (mood_9.py lines 424-435):
obtain the exemplar embedding through the cache (skipping the exemplar with
`continue` when it cannot be obtained), score it against the prompt embedding,
and update the running maximum only on a strictly greater similarity. -/
def stepUtterance (get_embedding : String → Option Vec) (sim : Vec → Vec → ℚ)
    (prompt_embedding : Vec) (asana : YogaAsana) (st : MatchState)
    (utterance : String) : MatchState :=
  match getOrCompute get_embedding st.cache utterance with
  | (none, cache1, _) => ⟨st.best_asana, st.best_similarity, cache1⟩
  | (some utterance_embedding, cache1, _) =>
      let similarity :=
        cosine_similarity sim (some prompt_embedding) (some utterance_embedding)
      if similarity > st.best_similarity then ⟨some asana, similarity, cache1⟩
      else ⟨st.best_asana, st.best_similarity, cache1⟩

/-- `find_best_asana` (mood_9.py lines 420-436): nested loops over the catalog
and each asana's utterances, starting from `best_asana = None`,
`best_similarity = -1`. -/
def find_best_asana (get_embedding : String → Option Vec) (sim : Vec → Vec → ℚ)
    (prompt_embedding : Vec) (asanas : List YogaAsana) (cache : Cache) :
    MatchState :=
  asanas.foldl
    (fun st asana =>
      asana.utterances.foldl
        (stepUtterance get_embedding sim prompt_embedding asana) st)
    ⟨none, -1, cache⟩

/-- The cache pre-warm loop of `startup_event` (mood_9.py lines 656-664):
embed every utterance not already cached, inserting on success and merely
logging on failure. -/
def startup_event (get_embedding : String → Option Vec)
    (asanas : List YogaAsana) (cache : Cache) : Cache :=
  asanas.foldl
    (fun c asana =>
      asana.utterances.foldl
        (fun c utterance =>
          match cacheLookup c utterance with
          | some _ => c
          | none =>
              match get_embedding utterance with
              | some v => (utterance, v) :: c
              | none => c)
        c)
    cache

/-- Fields read out of a successfully parsed Ollama chat response
(mood_9.py lines 487-494). -/
structure ChatResponse where
  total_duration : Nat
  load_duration : Nat
  prompt_eval_count : Nat
  prompt_eval_duration : Nat
  eval_count : Nat
  eval_duration : Nat
  content : String
deriving DecidableEq

/-- The metrics dictionary returned by `generate_final_comment`
(mood_9.py lines 496-504). -/
structure LLMMetrics where
  total_duration : Nat
  load_duration : Nat
  prompt_eval_count : Nat
  prompt_eval_duration : Nat
  eval_count : Nat
  eval_duration : Nat
  network_latency : ℚ
deriving DecidableEq

/-- The fixed fallback narrative returned on any chat-provider failure
(mood_9.py lines 509 and 520). -/
def fallback_comment : String := "Unable to generate final comment at this time."

/-- The all-zero metrics dictionary of the failure branches of
`generate_final_comment` (mood_9.py lines 509-517 and 520-528). -/
def zero_metrics : LLMMetrics := ⟨0, 0, 0, 0, 0, 0, 0⟩

/-- `generate_final_comment` (mood_9.py lines 438-528). The chat provider is
the parameter `chat`: `none` models every failure mode the source catches
(`requests.exceptions.RequestException` from the post or `raise_for_status`,
and `KeyError`/`TypeError` from an unexpected response structure); `some r`
models a parsed response, whose `content` the source strips.
`network_latency` is the measured wall-clock latency of the call. -/
def generate_final_comment (chat : Option ChatResponse) (network_latency : ℚ) :
    String × LLMMetrics :=
  match chat with
  | none => (fallback_comment, zero_metrics)
  | some r =>
      (r.content.trim,
        ⟨r.total_duration, r.load_duration, r.prompt_eval_count,
          r.prompt_eval_duration, r.eval_count, r.eval_duration,
          network_latency⟩)

/-- One row of `yoga_asana_metrics.csv` (`CSV_COLUMNS`, mood_9.py
lines 52-57). -/
structure LogData where
  datetime : String
  model_name : String
  embed_model : String
  prompt : String
  cosine_similarity_score : ℚ
  best_asana_selected : String
  total_duration : Nat
  load_duration : Nat
  prompt_eval_count : Nat
  prompt_eval_duration : Nat
  eval_count : Nat
  eval_duration : Nat
  tokens_per_second : ℚ
  pdf_report_time : ℚ
  network_latency : ℚ
  embed_match_duration : Nat
  total_response_time_sec : ℚ
deriving DecidableEq

/-- The `no_route` CSV row built on the NO_MATCH path (mood_9.py
lines 685-704), including the sentinel sanitisation of the score field on
line 690 (`similarity if similarity != -1 else 0`). -/
def no_route_record (user_prompt now : String) (similarity : ℚ)
    (embed_match_duration : Nat) : LogData :=
  { datetime := now
    model_name := LLM_MODEL_NAME
    embed_model := EMBED_MODEL
    prompt := user_prompt
    cosine_similarity_score := if similarity ≠ -1 then similarity else 0
    best_asana_selected := "no_route"
    total_duration := 0
    load_duration := 0
    prompt_eval_count := 0
    prompt_eval_duration := 0
    eval_count := 0
    eval_duration := 0
    tokens_per_second := 0
    pdf_report_time := 0
    network_latency := 0
    embed_match_duration := embed_match_duration
    total_response_time_sec := 0 }

/-- The derived tokens-per-second metric of the success path (mood_9.py
lines 737-741): `0` unless both `eval_count` and `eval_duration` are nonzero
(Python truthiness of the two counters). -/
def tokens_per_second (m : LLMMetrics) : ℚ :=
  if m.eval_count ≠ 0 ∧ m.eval_duration ≠ 0 then
    ((m.eval_count : ℚ) / (m.eval_duration : ℚ)) * 1000000000
  else 0

/-- The CSV row built on the success path (mood_9.py lines 743-761). -/
def matched_record (user_prompt now : String) (similarity : ℚ)
    (asana_name : String) (llm_metrics : LLMMetrics)
    (tps pdf_report_time : ℚ) (embed_match_duration : Nat)
    (response_time : ℚ) : LogData :=
  { datetime := now
    model_name := LLM_MODEL_NAME
    embed_model := EMBED_MODEL
    prompt := user_prompt
    cosine_similarity_score := similarity
    best_asana_selected := asana_name
    total_duration := llm_metrics.total_duration
    load_duration := llm_metrics.load_duration
    prompt_eval_count := llm_metrics.prompt_eval_count
    prompt_eval_duration := llm_metrics.prompt_eval_duration
    eval_count := llm_metrics.eval_count
    eval_duration := llm_metrics.eval_duration
    tokens_per_second := tps
    pdf_report_time := pdf_report_time
    network_latency := llm_metrics.network_latency
    embed_match_duration := embed_match_duration
    total_response_time_sec := response_time }

/-- Detail string of the HTTP 500 raised when the query embedding cannot be
obtained (mood_9.py line 675). -/
def embed_error_detail : String := "Failed to retrieve embedding for the prompt."

/-- Detail string of the HTTP 500 raised when PDF generation fails
(mood_9.py line 732). -/
def pdf_error_detail : String := "Failed to generate PDF report."

/-- Message of the no-match response (mood_9.py line 715). -/
def no_match_message : String := "No suitable Yoga Asana found for your current mood."

/-- Presentation rounding `round(similarity, 4)` of the success response
(mood_9.py line 773). Python rounds half to even while `round` on `ℚ` rounds
half up; the two differ only on exact ten-thousandth half-ties, which no claim
inspects. -/
def round4 (q : ℚ) : ℚ := round (q * 10000) / 10000

/-- The value `process_prompt` produces for the HTTP layer: an
`HTTPException`, the no-match body (mood_9.py lines 713-716), or the success
body (lines 770-783). -/
inductive ProcessResult where
  | httpError (status_code : Nat) (detail : String)
  | noMatch (message : String)
  | success (recommended_asana : String) (similarity_score : ℚ)
      (how_to_do : String) (frequency_of_yoga_asana : String)
      (timing_of_yoga_asana : String) (dietary_recommendations : String)
      (lifestyle_recommendations : String) (benefits_of_yoga_asana : String)
      (final_comment : String) (download_report_url : String)
      (total_response_time_sec : ℚ)
deriving DecidableEq

/-- True exactly on the success body. -/
def ProcessResult.isSuccess : ProcessResult → Bool
  | .success _ _ _ _ _ _ _ _ _ _ _ => true
  | _ => false

/-- True exactly on the no-match body. -/
def ProcessResult.isNoMatch : ProcessResult → Bool
  | .noMatch _ => true
  | _ => false

/-- The `final_comment` field of a success body, if any. -/
def ProcessResult.finalComment : ProcessResult → Option String
  | .success _ _ _ _ _ _ _ _ final_comment _ _ => some final_comment
  | _ => none

/-- Everything observable about one `process_prompt` request: the HTTP result,
the CSV rows appended, how many times the chat provider and the PDF renderer
were invoked, and the final cache. -/
structure ProcessOutcome where
  result : ProcessResult
  records : List LogData
  chat_calls : Nat
  render_calls : Nat
  cache : Cache
deriving DecidableEq

/-- `process_prompt` (mood_9.py lines 666-789). Collaborators and wall-clock
readings are parameters: `get_embedding` is the embedding provider (also used
for the query itself on line 673), `chat` the chat provider, `render` the PDF
renderer (`generate_pdf_report`, lines 530-643: `some (filename, time)` when
the build succeeds, `none` when reportlab raises and it returns `(None, 0)`),
and `now`, `network_latency`, `embed_match_duration`, `response_time` stand
for the measured times. -/
def process_prompt (get_embedding : String → Option Vec)
    (sim : Vec → Vec → ℚ) (chat : Option ChatResponse)
    (render : Option (String × ℚ)) (threshold : ℚ)
    (asanas : List YogaAsana) (cache : Cache) (user_prompt : String)
    (now : String) (network_latency : ℚ) (embed_match_duration : Nat)
    (response_time : ℚ) : ProcessOutcome :=
  match get_embedding user_prompt with
  | none => ⟨.httpError 500 embed_error_detail, [], 0, 0, cache⟩
  | some prompt_embedding =>
      let st := find_best_asana get_embedding sim prompt_embedding asanas cache
      match st.best_asana with
      | none =>
          ⟨.noMatch no_match_message,
            [no_route_record user_prompt now st.best_similarity
              embed_match_duration],
            0, 0, st.cache⟩
      | some best_asana =>
          if st.best_similarity < threshold then
            ⟨.noMatch no_match_message,
              [no_route_record user_prompt now st.best_similarity
                embed_match_duration],
              0, 0, st.cache⟩
          else
            let fc := generate_final_comment chat network_latency
            match render with
            | none => ⟨.httpError 500 pdf_error_detail, [], 1, 1, st.cache⟩
            | some (pdf_filename, pdf_report_time) =>
                ⟨.success best_asana.name (round4 st.best_similarity)
                    best_asana.how_to_do best_asana.frequency best_asana.timing
                    best_asana.dietary best_asana.lifestyle best_asana.benefits
                    fc.1 ("/download_report/" ++ pdf_filename) response_time,
                  [matched_record user_prompt now st.best_similarity
                    best_asana.name fc.2 (tokens_per_second fc.2)
                    pdf_report_time embed_match_duration response_time],
                  1, 1, st.cache⟩

/-- The embedding `find_best_asana` can obtain for an exemplar, as a function
of the cache at the start of the call: the cached vector when present,
otherwise whatever the provider returns. -/
def lookupOr (get_embedding : String → Option Vec) (cache : Cache)
    (u : String) : Option Vec :=
  match cacheLookup cache u with
  | some v => some v
  | none => get_embedding u

/-- The (asana, similarity) pairs `find_best_asana` examines, in iteration
order, restricted to exemplars whose embedding is obtainable. -/
def scoredList (get_embedding : String → Option Vec) (sim : Vec → Vec → ℚ)
    (prompt_embedding : Vec) (cache : Cache) (asanas : List YogaAsana) :
    List (YogaAsana × ℚ) :=
  asanas.flatMap fun asana =>
    asana.utterances.filterMap fun u =>
      (lookupOr get_embedding cache u).map fun ue =>
        (asana, sim prompt_embedding ue)

/-- One update of the running maximum: replace only on a strictly greater
score. -/
def selStep (st : Option YogaAsana × ℚ) (e : YogaAsana × ℚ) :
    Option YogaAsana × ℚ :=
  if e.2 > st.2 then (some e.1, e.2) else st

/-- The selection components of a `MatchState`. -/
def MatchState.sel (st : MatchState) : Option YogaAsana × ℚ :=
  (st.best_asana, st.best_similarity)

/-- How the cache may change during a request, relative to the cache `c0` it
started from: every existing entry is still present with the same vector (no
eviction, no overwrite), and the embedding obtainable for any phrase is
unchanged (inserts only memoise what the provider returns anyway). -/
def CacheEvolves (get_embedding : String → Option Vec) (c0 c : Cache) : Prop :=
  (∀ q w, cacheLookup c0 q = some w → cacheLookup c q = some w)
  ∧ (∀ q, lookupOr get_embedding c q = lookupOr get_embedding c0 q)

/-- Concrete exemplar phrase used by the test catalog below. -/
def uttA : String := "calm exemplar"

/-- Concrete exemplar phrase used by the test catalog below. -/
def uttB : String := "stress exemplar"

/-- Concrete exemplar phrase used by the test catalog below. -/
def uttC : String := "sleep exemplar"

/-- Concrete query embedding for the test inputs. -/
def vecQ : Vec := [3]

/-- Concrete exemplar embedding for `uttA`. -/
def vecA : Vec := [5]

/-- Concrete exemplar embedding for `uttB`. -/
def vecB : Vec := [7]

/-- Concrete exemplar embedding for `uttC`. -/
def vecC : Vec := [9]

/-- Test catalog entry owning `uttA`. -/
def asanaA : YogaAsana :=
  ⟨"Asana A", [uttA], "how A", "freq A", "time A", "diet A", "life A", "ben A"⟩

/-- Test catalog entry owning `uttB`. -/
def asanaB : YogaAsana :=
  ⟨"Asana B", [uttB], "how B", "freq B", "time B", "diet B", "life B", "ben B"⟩

/-- Test catalog entry owning `uttC`. -/
def asanaC : YogaAsana :=
  ⟨"Asana C", [uttC], "how C", "freq C", "time C", "diet C", "life C", "ben C"⟩

/-- Three-asana test catalog. -/
def catalog : List YogaAsana := [asanaA, asanaB, asanaC]

/-- Deterministic test embedding provider: each exemplar maps to its vector,
every other text (in particular the user prompt) to `vecQ`. -/
def geTest : String → Option Vec := fun u =>
  if u = uttA then some vecA
  else if u = uttB then some vecB
  else if u = uttC then some vecC
  else some vecQ

/-- Test embedding provider that always fails. -/
def geFail : String → Option Vec := fun _ => none

/-- Test similarity table: score 1 against `vecA`, score 2 against `vecB` and
`vecC` (a tie at the maximum), 0 otherwise. -/
def simTest : Vec → Vec → ℚ := fun _ v =>
  if v = vecA then 1 else if v = vecB then 2 else if v = vecC then 2 else 0

/-- Test similarity table that always scores the sentinel value -1. -/
def simNegOne : Vec → Vec → ℚ := fun _ _ => -1

/-- Test user prompt. -/
def promptTest : String := "user mood prompt"

/-- Test timestamp. -/
def nowTest : String := "2026-01-01 00:00:00"

/-- Test chat response. -/
def chatTest : ChatResponse := ⟨10, 2, 3, 4, 5, 6, " a comment "⟩

lemma cacheEvolves_refl (get_embedding : String → Option Vec) (c : Cache) :
    CacheEvolves get_embedding c c :=
  ⟨fun _ _ h => h, fun _ => rfl⟩

lemma foldl_preserves {α : Type} {β : Type} (P : α → Prop) (f : α → β → α)
    (hf : ∀ a b, P a → P (f a b)) :
    ∀ (l : List β) (a : α), P a → P (l.foldl f a) := by
  intro l
  induction l with
  | nil => exact fun a h => h
  | cons b l ih => exact fun a h => ih (f a b) (hf a b h)

lemma cacheEvolves_trans {get_embedding : String → Option Vec}
    {c0 c1 c2 : Cache} (h1 : CacheEvolves get_embedding c0 c1)
    (h2 : CacheEvolves get_embedding c1 c2) :
    CacheEvolves get_embedding c0 c2 :=
  ⟨fun q w hw => h2.1 q w (h1.1 q w hw), fun q => (h2.2 q).trans (h1.2 q)⟩

lemma cacheLookup_cons (k : String) (v : Vec) (c : Cache) (u : String) :
    cacheLookup ((k, v) :: c) u = if u = k then some v else cacheLookup c u :=
  rfl

lemma cacheLookup_insert_preserve (c : Cache) (u : String) (v : Vec)
    (q : String) (w : Vec) (hq : cacheLookup c q = some w)
    (hu : cacheLookup c u = none) : cacheLookup ((u, v) :: c) q = some w := by
  have hne : q ≠ u := by
    intro he
    rw [he, hu] at hq
    exact Option.noConfusion hq
  rw [cacheLookup_cons, if_neg hne]
  exact hq

lemma cacheEvolves_insert (get_embedding : String → Option Vec) (c : Cache)
    (u : String) (v : Vec) (hc : cacheLookup c u = none)
    (hg : get_embedding u = some v) :
    CacheEvolves get_embedding c ((u, v) :: c) := by
  constructor
  · exact fun q w hw => cacheLookup_insert_preserve c u v q w hw hc
  · intro q
    unfold lookupOr
    rw [cacheLookup_cons]
    by_cases hq : q = u
    · subst hq
      rw [if_pos rfl, hc, hg]
    · rw [if_neg hq]

lemma getOrCompute_hit (get_embedding : String → Option Vec) (c : Cache)
    (u : String) (v : Vec) (h : cacheLookup c u = some v) :
    getOrCompute get_embedding c u = (some v, c, 0) := by
  unfold getOrCompute
  rw [h]

lemma getOrCompute_miss_hit (get_embedding : String → Option Vec) (c : Cache)
    (u : String) (v : Vec) (hc : cacheLookup c u = none)
    (hg : get_embedding u = some v) :
    getOrCompute get_embedding c u = (some v, (u, v) :: c, 1) := by
  unfold getOrCompute
  rw [hc, hg]

lemma getOrCompute_miss_miss (get_embedding : String → Option Vec) (c : Cache)
    (u : String) (hc : cacheLookup c u = none) (hg : get_embedding u = none) :
    getOrCompute get_embedding c u = (none, c, 1) := by
  unfold getOrCompute
  rw [hc, hg]

lemma getOrCompute_fst (get_embedding : String → Option Vec) (c : Cache)
    (u : String) :
    (getOrCompute get_embedding c u).1 = lookupOr get_embedding c u := by
  unfold getOrCompute lookupOr
  cases hc : cacheLookup c u with
  | some v => rfl
  | none => cases hg : get_embedding u with
    | some v => rfl
    | none => rfl

lemma getOrCompute_evolves (get_embedding : String → Option Vec) (c : Cache)
    (u : String) :
    CacheEvolves get_embedding c (getOrCompute get_embedding c u).2.1 := by
  unfold getOrCompute
  cases hc : cacheLookup c u with
  | some v => exact cacheEvolves_refl get_embedding c
  | none => cases hg : get_embedding u with
    | some v => exact cacheEvolves_insert get_embedding c u v hc hg
    | none => exact cacheEvolves_refl get_embedding c

lemma stepUtterance_sel (get_embedding : String → Option Vec)
    (sim : Vec → Vec → ℚ) (pe : Vec) (asana : YogaAsana) (st : MatchState)
    (u : String) (c0 : Cache) (h : CacheEvolves get_embedding c0 st.cache) :
    ((stepUtterance get_embedding sim pe asana st u).sel
        = match lookupOr get_embedding c0 u with
          | none => st.sel
          | some ue => selStep st.sel (asana, sim pe ue))
    ∧ CacheEvolves get_embedding c0
        (stepUtterance get_embedding sim pe asana st u).cache := by
  have hfst : (getOrCompute get_embedding st.cache u).1
      = lookupOr get_embedding c0 u := by
    rw [getOrCompute_fst, h.2 u]
  have hev : CacheEvolves get_embedding c0
      (getOrCompute get_embedding st.cache u).2.1 :=
    cacheEvolves_trans h (getOrCompute_evolves get_embedding st.cache u)
  rcases hgoc : getOrCompute get_embedding st.cache u with ⟨r, c1, n⟩
  rw [hgoc] at hfst hev
  unfold stepUtterance
  rw [hgoc, ← hfst]
  cases r with
  | none => exact ⟨rfl, hev⟩
  | some ue =>
      refine ⟨?_, ?_⟩
      · show (if sim pe ue > st.best_similarity then
            (⟨some asana, sim pe ue, c1⟩ : MatchState)
          else ⟨st.best_asana, st.best_similarity, c1⟩).sel
          = selStep st.sel (asana, sim pe ue)
        unfold selStep MatchState.sel
        by_cases hlt : sim pe ue > st.best_similarity
        · rw [if_pos hlt, if_pos hlt]
        · rw [if_neg hlt, if_neg hlt]
      · show CacheEvolves get_embedding c0
          (if sim pe ue > st.best_similarity then
            (⟨some asana, sim pe ue, c1⟩ : MatchState)
          else ⟨st.best_asana, st.best_similarity, c1⟩).cache
        by_cases hlt : sim pe ue > st.best_similarity
        · rw [if_pos hlt]; exact hev
        · rw [if_neg hlt]; exact hev

lemma foldl_stepUtterance_sel (get_embedding : String → Option Vec)
    (sim : Vec → Vec → ℚ) (pe : Vec) (asana : YogaAsana) (c0 : Cache) :
    ∀ (utts : List String) (st : MatchState),
      CacheEvolves get_embedding c0 st.cache →
      ((utts.foldl (stepUtterance get_embedding sim pe asana) st).sel
          = (utts.filterMap fun u =>
              (lookupOr get_embedding c0 u).map fun ue =>
                (asana, sim pe ue)).foldl selStep st.sel)
        ∧ CacheEvolves get_embedding c0
            (utts.foldl (stepUtterance get_embedding sim pe asana) st).cache := by
  intro utts
  induction utts with
  | nil => exact fun st h => ⟨rfl, h⟩
  | cons u utts ih =>
      intro st h
      have hstep := stepUtterance_sel get_embedding sim pe asana st u c0 h
      have hrest := ih (stepUtterance get_embedding sim pe asana st u) hstep.2
      rw [List.foldl_cons, List.filterMap_cons]
      cases hl : lookupOr get_embedding c0 u with
      | none =>
          rw [hl] at hstep
          refine ⟨?_, hrest.2⟩
          rw [hrest.1, hstep.1]
          simp
      | some ue =>
          rw [hl] at hstep
          refine ⟨?_, hrest.2⟩
          rw [hrest.1, hstep.1]
          simp

lemma find_best_asana_aux_sel (get_embedding : String → Option Vec)
    (sim : Vec → Vec → ℚ) (pe : Vec) (c0 : Cache) :
    ∀ (asanas : List YogaAsana) (st : MatchState),
      CacheEvolves get_embedding c0 st.cache →
      ((asanas.foldl
          (fun st asana =>
            asana.utterances.foldl
              (stepUtterance get_embedding sim pe asana) st) st).sel
          = (asanas.flatMap fun asana =>
              asana.utterances.filterMap fun u =>
                (lookupOr get_embedding c0 u).map fun ue =>
                  (asana, sim pe ue)).foldl selStep st.sel)
        ∧ CacheEvolves get_embedding c0
            (asanas.foldl
              (fun st asana =>
                asana.utterances.foldl
                  (stepUtterance get_embedding sim pe asana) st) st).cache := by
  intro asanas
  induction asanas with
  | nil => exact fun st h => ⟨rfl, h⟩
  | cons a asanas ih =>
      intro st h
      have hin := foldl_stepUtterance_sel get_embedding sim pe a c0
        a.utterances st h
      have hout := ih
        (a.utterances.foldl (stepUtterance get_embedding sim pe a) st) hin.2
      refine ⟨?_, hout.2⟩
      rw [List.foldl_cons, hout.1, hin.1, List.flatMap_cons, List.foldl_append]

/-- The loop of `find_best_asana` computes exactly the strictly-greater
running-maximum fold over the scored exemplar pairs, and the cache only grows
along the way. -/
lemma find_best_asana_spec (get_embedding : String → Option Vec)
    (sim : Vec → Vec → ℚ) (pe : Vec) (asanas : List YogaAsana)
    (cache : Cache) :
    ((find_best_asana get_embedding sim pe asanas cache).sel
        = (scoredList get_embedding sim pe cache asanas).foldl selStep
            (none, -1))
    ∧ CacheEvolves get_embedding cache
        (find_best_asana get_embedding sim pe asanas cache).cache := by
  have h := find_best_asana_aux_sel get_embedding sim pe cache asanas
    ⟨none, -1, cache⟩ (cacheEvolves_refl get_embedding cache)
  exact h

lemma foldl_selStep_snd_lt {s : ℚ} :
    ∀ (L : List (YogaAsana × ℚ)) (p : Option YogaAsana × ℚ),
      p.2 < s → (∀ e ∈ L, e.2 < s) → (L.foldl selStep p).2 < s := by
  intro L
  induction L with
  | nil => exact fun p hp _ => hp
  | cons e L ih =>
      intro p hp hL
      rw [List.foldl_cons]
      refine ih (selStep p e) ?_ fun x hx => hL x (List.mem_cons_of_mem e hx)
      unfold selStep
      by_cases hc : e.2 > p.2
      · rw [if_pos hc]
        exact hL e (List.mem_cons_self e L)
      · rw [if_neg hc]
        exact hp

lemma foldl_selStep_no_update (o : Option YogaAsana) (s : ℚ) :
    ∀ (L : List (YogaAsana × ℚ)), (∀ e ∈ L, e.2 ≤ s) →
      L.foldl selStep (o, s) = (o, s) := by
  intro L
  induction L with
  | nil => exact fun _ => rfl
  | cons e L ih =>
      intro hL
      rw [List.foldl_cons]
      have hsel : selStep (o, s) e = (o, s) := by
        unfold selStep
        exact if_neg (not_lt.mpr (hL e (List.mem_cons_self e L)))
      rw [hsel]
      exact ih fun x hx => hL x (List.mem_cons_of_mem e hx)

lemma foldl_selStep_mem :
    ∀ (L : List (YogaAsana × ℚ)) (p : Option YogaAsana × ℚ),
      L.foldl selStep p = p ∨ ∃ e ∈ L, L.foldl selStep p = (some e.1, e.2) := by
  intro L
  induction L with
  | nil => exact fun p => Or.inl rfl
  | cons e L ih =>
      intro p
      rw [List.foldl_cons]
      by_cases hc : e.2 > p.2
      · have hsel : selStep p e = (some e.1, e.2) := by
          unfold selStep
          exact if_pos hc
        rw [hsel]
        rcases ih (some e.1, e.2) with h | ⟨x, hx, hfx⟩
        · exact Or.inr ⟨e, List.mem_cons_self e L, h⟩
        · exact Or.inr ⟨x, List.mem_cons_of_mem e hx, hfx⟩
      · have hsel : selStep p e = p := by
          unfold selStep
          exact if_neg hc
        rw [hsel]
        rcases ih p with h | ⟨x, hx, hfx⟩
        · exact Or.inl h
        · exact Or.inr ⟨x, List.mem_cons_of_mem e hx, hfx⟩

lemma foldl_selStep_first_max (L1 L2 : List (YogaAsana × ℚ))
    (e : YogaAsana × ℚ) (hgt : -1 < e.2) (h1 : ∀ x ∈ L1, x.2 < e.2)
    (h2 : ∀ x ∈ L2, x.2 ≤ e.2) :
    (L1 ++ e :: L2).foldl selStep ((none : Option YogaAsana), (-1 : ℚ))
      = (some e.1, e.2) := by
  rw [List.foldl_append, List.foldl_cons]
  have hlt : (L1.foldl selStep ((none : Option YogaAsana), (-1 : ℚ))).2 < e.2 :=
    foldl_selStep_snd_lt L1 _ hgt h1
  have hsel : selStep (L1.foldl selStep (none, -1)) e = (some e.1, e.2) := by
    unfold selStep
    exact if_pos hlt
  rw [hsel]
  exact foldl_selStep_no_update e.1 e.2 L2 h2

section ProcessBranches

variable (get_embedding : String → Option Vec) (sim : Vec → Vec → ℚ)
  (chat : Option ChatResponse) (render : Option (String × ℚ)) (threshold : ℚ)
  (asanas : List YogaAsana) (cache : Cache) (user_prompt now : String)
  (network_latency : ℚ) (embed_match_duration : Nat) (response_time : ℚ)
  (pe : Vec)

lemma process_prompt_embed_fail (hE : get_embedding user_prompt = none) :
    process_prompt get_embedding sim chat render threshold asanas cache
        user_prompt now network_latency embed_match_duration response_time
      = ⟨.httpError 500 embed_error_detail, [], 0, 0, cache⟩ := by
  unfold process_prompt
  rw [hE]

lemma process_prompt_no_match (hE : get_embedding user_prompt = some pe)
    (hnm : (find_best_asana get_embedding sim pe asanas cache).best_asana = none
      ∨ (find_best_asana get_embedding sim pe asanas cache).best_similarity
          < threshold) :
    process_prompt get_embedding sim chat render threshold asanas cache
        user_prompt now network_latency embed_match_duration response_time
      = ⟨.noMatch no_match_message,
          [no_route_record user_prompt now
            (find_best_asana get_embedding sim pe asanas cache).best_similarity
            embed_match_duration],
          0, 0, (find_best_asana get_embedding sim pe asanas cache).cache⟩ := by
  unfold process_prompt
  rw [hE]
  simp only
  cases hb : (find_best_asana get_embedding sim pe asanas cache).best_asana with
  | none => rfl
  | some a =>
      rcases hnm with hnone | hlt
      · rw [hb] at hnone
        exact Option.noConfusion hnone
      · dsimp only
        rw [if_pos hlt]

lemma process_prompt_matched_render_fail
    (hE : get_embedding user_prompt = some pe) (a : YogaAsana)
    (hb : (find_best_asana get_embedding sim pe asanas cache).best_asana
        = some a)
    (hth : threshold
        ≤ (find_best_asana get_embedding sim pe asanas cache).best_similarity)
    (hr : render = none) :
    process_prompt get_embedding sim chat render threshold asanas cache
        user_prompt now network_latency embed_match_duration response_time
      = ⟨.httpError 500 pdf_error_detail, [], 1, 1,
          (find_best_asana get_embedding sim pe asanas cache).cache⟩ := by
  unfold process_prompt
  rw [hE]
  simp only
  rw [hb]
  dsimp only
  rw [if_neg (not_lt.mpr hth), hr]

lemma process_prompt_matched (hE : get_embedding user_prompt = some pe)
    (a : YogaAsana) (pdf_filename : String) (pdf_report_time : ℚ)
    (hb : (find_best_asana get_embedding sim pe asanas cache).best_asana
        = some a)
    (hth : threshold
        ≤ (find_best_asana get_embedding sim pe asanas cache).best_similarity)
    (hr : render = some (pdf_filename, pdf_report_time)) :
    process_prompt get_embedding sim chat render threshold asanas cache
        user_prompt now network_latency embed_match_duration response_time
      = ⟨.success a.name
            (round4 (find_best_asana get_embedding sim pe asanas
              cache).best_similarity)
            a.how_to_do a.frequency a.timing a.dietary a.lifestyle a.benefits
            (generate_final_comment chat network_latency).1
            ("/download_report/" ++ pdf_filename) response_time,
          [matched_record user_prompt now
            (find_best_asana get_embedding sim pe asanas cache).best_similarity
            a.name (generate_final_comment chat network_latency).2
            (tokens_per_second (generate_final_comment chat network_latency).2)
            pdf_report_time embed_match_duration response_time],
          1, 1, (find_best_asana get_embedding sim pe asanas cache).cache⟩ := by
  unfold process_prompt
  rw [hE]
  simp only
  rw [hb]
  dsimp only
  rw [if_neg (not_lt.mpr hth), hr]

/-- Claim C2: when the scored exemplar pairs split as a prefix of strictly
smaller scores, a first maximal entry `e` (above the `-1` initialisation of
the running maximum), and a tail of scores at most `e.2` — in particular when
several later exemplars tie with `e` at the maximum — `find_best_asana`
deterministically returns the category of that first maximal exemplar in
catalog iteration order, because the running maximum is updated only on a
strictly greater comparison. -/
theorem c2_tie_break_first_wins (L1 L2 : List (YogaAsana × ℚ))
    (e : YogaAsana × ℚ)
    (hL : scoredList get_embedding sim pe cache asanas = L1 ++ e :: L2)
    (hgt : -1 < e.2) (h1 : ∀ x ∈ L1, x.2 < e.2) (h2 : ∀ x ∈ L2, x.2 ≤ e.2) :
    (find_best_asana get_embedding sim pe asanas cache).best_asana = some e.1
    ∧ (find_best_asana get_embedding sim pe asanas cache).best_similarity
        = e.2 := by
  have hspec := (find_best_asana_spec get_embedding sim pe asanas cache).1
  rw [hL, foldl_selStep_first_max L1 L2 e hgt h1 h2] at hspec
  exact ⟨congrArg Prod.fst hspec, congrArg Prod.snd hspec⟩

/-- Witness for C2 on the concrete catalog: `asanaB` and `asanaC` tie at the
maximal score 2, and the matcher selects `asanaB`, the first of the two. -/
theorem c2_tie_break_first_wins_witness :
    (scoredList geTest simTest vecQ [] catalog
        = [(asanaA, 1)] ++ (asanaB, (2 : ℚ)) :: [(asanaC, 2)]
      ∧ (-1 : ℚ) < 2
      ∧ (∀ x ∈ [(asanaA, (1 : ℚ))], x.2 < 2)
      ∧ (∀ x ∈ [(asanaC, (2 : ℚ))], x.2 ≤ 2))
    ∧ ((find_best_asana geTest simTest vecQ catalog []).best_asana = some asanaB
      ∧ (find_best_asana geTest simTest vecQ catalog []).best_similarity = 2) :=
  ⟨⟨by decide, by decide, by decide, by decide⟩,
    c2_tie_break_first_wins geTest simTest catalog [] vecQ [(asanaA, 1)]
      [(asanaC, 2)] (asanaB, 2) (by decide) (by decide) (by decide) (by decide)⟩

/-- Claim C3: an absent exemplar embedding scores the sentinel `-1` in
`cosine_similarity`; if every exemplar of the catalog is absent (not cached
and not obtainable from the provider) then `find_best_asana` returns category
none with score `-1`; and whenever a category is selected, it owes its
selection to an exemplar whose embedding was obtainable — absent exemplars
can never win. -/
theorem c3_absent_embedding_sentinel :
    (∀ ov : Option Vec, cosine_similarity sim none ov = -1
        ∧ cosine_similarity sim ov none = -1)
    ∧ ((∀ a ∈ asanas, ∀ u ∈ a.utterances,
          cacheLookup cache u = none ∧ get_embedding u = none) →
        (find_best_asana get_embedding sim pe asanas cache).best_asana = none
        ∧ (find_best_asana get_embedding sim pe asanas cache).best_similarity
            = -1)
    ∧ (∀ a : YogaAsana,
        (find_best_asana get_embedding sim pe asanas cache).best_asana
            = some a →
        ∃ u ∈ a.utterances, lookupOr get_embedding cache u ≠ none) := by
  refine ⟨?_, ?_, ?_⟩
  · intro ov
    cases ov with
    | none => exact ⟨rfl, rfl⟩
    | some v => exact ⟨rfl, rfl⟩
  · intro h
    have hnil : scoredList get_embedding sim pe cache asanas = [] := by
      unfold scoredList
      rw [List.flatMap_eq_nil_iff]
      intro a ha
      rw [List.filterMap_eq_nil_iff]
      intro u hu
      have hh := h a ha u hu
      unfold lookupOr
      rw [hh.1, hh.2]
      rfl
    have hspec := (find_best_asana_spec get_embedding sim pe asanas cache).1
    rw [hnil] at hspec
    exact ⟨congrArg Prod.fst hspec, congrArg Prod.snd hspec⟩
  · intro a hsome
    have hspec := (find_best_asana_spec get_embedding sim pe asanas cache).1
    rcases foldl_selStep_mem (scoredList get_embedding sim pe cache asanas)
        (none, -1) with hid | ⟨x, hx, hfx⟩
    · rw [hid] at hspec
      have hnone : (find_best_asana get_embedding sim pe asanas
          cache).best_asana = none := congrArg Prod.fst hspec
      rw [hsome] at hnone
      exact Option.noConfusion hnone
    · rw [hfx] at hspec
      have hfst : (find_best_asana get_embedding sim pe asanas
          cache).best_asana = some x.1 := congrArg Prod.fst hspec
      rw [hsome] at hfst
      have hax : a = x.1 := by
        injection hfst
      rw [scoredList, List.mem_flatMap] at hx
      rcases hx with ⟨a1, ha1, hx1⟩
      rw [List.mem_filterMap] at hx1
      rcases hx1 with ⟨u, hu, hmap⟩
      rcases Option.map_eq_some'.mp hmap with ⟨ue, hue, hpair⟩
      have ha1x : a1 = x.1 := congrArg Prod.fst hpair
      have haa1 : a1 = a := by rw [ha1x, ← hax]
      refine ⟨u, ?_, ?_⟩
      · rw [← haa1]
        exact hu
      · rw [hue]
        exact fun hc => Option.noConfusion hc

/-- Witness for C3: with the always-failing provider and an empty cache every
exemplar is absent, and the matcher returns category none with score -1. -/
theorem c3_absent_embedding_sentinel_witness :
    (∀ a ∈ catalog, ∀ u ∈ a.utterances,
        cacheLookup ([] : Cache) u = none ∧ geFail u = none)
    ∧ ((find_best_asana geFail simTest vecQ catalog []).best_asana = none
      ∧ (find_best_asana geFail simTest vecQ catalog []).best_similarity
          = -1) :=
  ⟨by decide,
    (c3_absent_embedding_sentinel geFail simTest catalog [] vecQ).2.1
      (by decide)⟩

/-- Claim C8: the embedding cache is a pure memoization cache. A lookup
consults the cache first (a hit returns the cached vector with zero provider
invocations), a successful computation inserts the result, entries are never
evicted or overwritten (neither by a single consultation, nor across a whole
`find_best_asana` call, nor by the startup pre-warm), and requesting the same
phrase again right after a successful consultation returns the identical
cached vector with no further provider invocation. -/
theorem c8_pure_memoization_cache :
    (∀ (c : Cache) (u : String) (v : Vec), cacheLookup c u = some v →
        getOrCompute get_embedding c u = (some v, c, 0))
    ∧ (∀ (c : Cache) (u : String) (v : Vec),
        cacheLookup c u = none → get_embedding u = some v →
        getOrCompute get_embedding c u = (some v, (u, v) :: c, 1))
    ∧ (∀ (c : Cache) (u q : String) (w : Vec), cacheLookup c q = some w →
        cacheLookup (getOrCompute get_embedding c u).2.1 q = some w)
    ∧ (∀ (c : Cache) (u : String) (v : Vec) (c1 : Cache) (n : Nat),
        getOrCompute get_embedding c u = (some v, c1, n) →
        getOrCompute get_embedding c1 u = (some v, c1, 0))
    ∧ (∀ (c : Cache) (q : String) (w : Vec), cacheLookup c q = some w →
        cacheLookup (find_best_asana get_embedding sim pe asanas c).cache q
          = some w)
    ∧ (∀ (c : Cache) (q : String) (w : Vec), cacheLookup c q = some w →
        cacheLookup (startup_event get_embedding asanas c) q = some w) := by
  refine ⟨?_, ?_, ?_, ?_, ?_, ?_⟩
  · exact fun c u v h => getOrCompute_hit get_embedding c u v h
  · exact fun c u v hc hg => getOrCompute_miss_hit get_embedding c u v hc hg
  · exact fun c u q w hq => (getOrCompute_evolves get_embedding c u).1 q w hq
  · intro c u v c1 n hgoc
    cases hc : cacheLookup c u with
    | some w =>
        rw [getOrCompute_hit get_embedding c u w hc] at hgoc
        simp only [Prod.mk.injEq] at hgoc
        obtain ⟨hv, hc1, -⟩ := hgoc
        injection hv with hwv
        rw [← hc1, ← hwv]
        exact getOrCompute_hit get_embedding c u w hc
    | none =>
        cases hg : get_embedding u with
        | some w =>
            rw [getOrCompute_miss_hit get_embedding c u w hc hg] at hgoc
            simp only [Prod.mk.injEq] at hgoc
            obtain ⟨hv, hc1, -⟩ := hgoc
            injection hv with hwv
            rw [← hc1, ← hwv]
            exact getOrCompute_hit get_embedding ((u, w) :: c) u w
              (by rw [cacheLookup_cons, if_pos rfl])
        | none =>
            rw [getOrCompute_miss_miss get_embedding c u hc hg] at hgoc
            simp only [Prod.mk.injEq] at hgoc
            exact Option.noConfusion hgoc.1
  · exact fun c q w hq =>
      (find_best_asana_spec get_embedding sim pe asanas c).2.1 q w hq
  · intro c q w hq
    unfold startup_event
    refine foldl_preserves (fun c => cacheLookup c q = some w) _ ?_ asanas c hq
    intro c1 a hc1
    refine foldl_preserves (fun c => cacheLookup c q = some w) _ ?_
      a.utterances c1 hc1
    intro c2 u hc2
    cases hcu : cacheLookup c2 u with
    | some v => exact hc2
    | none =>
        cases hgu : get_embedding u with
        | some v => exact cacheLookup_insert_preserve c2 u v q w hc2 hcu
        | none => exact hc2

/-- Witness for C8: computing `uttA`'s embedding once inserts it, and the
second consultation of the same phrase is answered from the cache with zero
provider invocations. -/
theorem c8_pure_memoization_cache_witness :
    (cacheLookup ([] : Cache) uttA = none ∧ geTest uttA = some vecA
      ∧ getOrCompute geTest [] uttA = (some vecA, [(uttA, vecA)], 1))
    ∧ (getOrCompute geTest [(uttA, vecA)] uttA
        = (some vecA, [(uttA, vecA)], 0)) :=
  ⟨⟨by decide, by decide,
      (c8_pure_memoization_cache geTest simTest catalog vecQ).2.1 [] uttA vecA
        (by decide) (by decide)⟩,
    (c8_pure_memoization_cache geTest simTest catalog vecQ).2.2.2.1 [] uttA
      vecA [(uttA, vecA)] 1 (by decide)⟩

/-- Claim C9: when every scored exemplar similarity equals the sentinel `-1`
(as a real cosine score can, for exactly opposite vectors), the matcher's
running maximum — initialised to `-1` and updated only on strictly greater
scores — never selects a category: `find_best_asana` returns none with score
`-1`, and the request is decided NO_MATCH whatever the configured threshold
is. -/
theorem c9_exact_sentinel_never_selected
    (hE : get_embedding user_prompt = some pe)
    (hall : ∀ e ∈ scoredList get_embedding sim pe cache asanas, e.2 = -1) :
    (find_best_asana get_embedding sim pe asanas cache).best_asana = none
    ∧ (find_best_asana get_embedding sim pe asanas cache).best_similarity = -1
    ∧ (process_prompt get_embedding sim chat render threshold asanas cache
        user_prompt now network_latency embed_match_duration
        response_time).result.isNoMatch = true := by
  have hspec := (find_best_asana_spec get_embedding sim pe asanas cache).1
  have hfold := foldl_selStep_no_update none (-1)
    (scoredList get_embedding sim pe cache asanas)
    (fun e he => le_of_eq (hall e he))
  rw [hfold] at hspec
  have hba : (find_best_asana get_embedding sim pe asanas cache).best_asana
      = none := congrArg Prod.fst hspec
  refine ⟨hba, congrArg Prod.snd hspec, ?_⟩
  rw [process_prompt_no_match get_embedding sim chat render threshold asanas
    cache user_prompt now network_latency embed_match_duration response_time
    pe hE (Or.inl hba)]
  rfl

/-- Witness for C9: with a similarity table that is constantly `-1`, every
scored pair carries `-1` and the request is decided NO_MATCH even with the
permissive threshold `-5`. -/
theorem c9_exact_sentinel_never_selected_witness :
    (geTest promptTest = some vecQ
      ∧ ∀ e ∈ scoredList geTest simNegOne vecQ [] catalog, e.2 = -1)
    ∧ ((find_best_asana geTest simNegOne vecQ catalog []).best_asana = none
      ∧ (find_best_asana geTest simNegOne vecQ catalog []).best_similarity = -1
      ∧ (process_prompt geTest simNegOne (some chatTest)
          (some ("report.pdf", 2)) (-5) catalog [] promptTest nowTest 0 0
          0).result.isNoMatch = true) :=
  ⟨⟨by decide, by decide⟩,
    c9_exact_sentinel_never_selected geTest simNegOne (some chatTest)
      (some ("report.pdf", 2)) (-5) catalog [] promptTest nowTest 0 0 0 vecQ
      (by decide) (by decide)⟩

/-- Claim C1: with the query embedding available and the PDF renderer
succeeding, a success response is produced iff the selected category is not
none and the best similarity is at least the configured threshold (so a score
exactly equal to the threshold yields MATCHED), and any strictly lower score
yields the no-match response. -/
theorem c1_threshold_gate (pdf_filename : String) (pdf_report_time : ℚ)
    (hE : get_embedding user_prompt = some pe) :
    ((process_prompt get_embedding sim chat
          (some (pdf_filename, pdf_report_time)) threshold asanas cache
          user_prompt now network_latency embed_match_duration
          response_time).result.isSuccess = true
      ↔ ((find_best_asana get_embedding sim pe asanas cache).best_asana ≠ none
        ∧ threshold
            ≤ (find_best_asana get_embedding sim pe asanas
                cache).best_similarity))
    ∧ ((find_best_asana get_embedding sim pe asanas cache).best_similarity
          < threshold →
        (process_prompt get_embedding sim chat
            (some (pdf_filename, pdf_report_time)) threshold asanas cache
            user_prompt now network_latency embed_match_duration
            response_time).result.isNoMatch = true) := by
  constructor
  · cases hb : (find_best_asana get_embedding sim pe asanas cache).best_asana
      with
    | none =>
        rw [process_prompt_no_match get_embedding sim chat
          (some (pdf_filename, pdf_report_time)) threshold asanas cache
          user_prompt now network_latency embed_match_duration response_time
          pe hE (Or.inl hb)]
        simp [ProcessResult.isSuccess]
    | some a =>
        by_cases hlt :
            (find_best_asana get_embedding sim pe asanas
              cache).best_similarity < threshold
        · rw [process_prompt_no_match get_embedding sim chat
            (some (pdf_filename, pdf_report_time)) threshold asanas cache
            user_prompt now network_latency embed_match_duration response_time
            pe hE (Or.inr hlt)]
          exact iff_of_false (by simp [ProcessResult.isSuccess])
            fun hrhs => absurd hlt (not_lt.mpr hrhs.2)
        · rw [process_prompt_matched get_embedding sim chat
            (some (pdf_filename, pdf_report_time)) threshold asanas cache
            user_prompt now network_latency embed_match_duration response_time
            pe hE a pdf_filename pdf_report_time hb (not_lt.mp hlt) rfl]
          exact iff_of_true rfl ⟨fun hc => Option.noConfusion hc,
            not_lt.mp hlt⟩
  · intro hlt
    rw [process_prompt_no_match get_embedding sim chat
      (some (pdf_filename, pdf_report_time)) threshold asanas cache
      user_prompt now network_latency embed_match_duration response_time pe hE
      (Or.inr hlt)]
    rfl

/-- Witness for C1 at the threshold boundary: the best score is exactly the
threshold 2 and the request succeeds. -/
theorem c1_threshold_gate_witness :
    geTest promptTest = some vecQ
    ∧ (((process_prompt geTest simTest (some chatTest) (some ("report.pdf", 2))
          2 catalog [] promptTest nowTest 0 0 0).result.isSuccess = true
        ↔ ((find_best_asana geTest simTest vecQ catalog []).best_asana ≠ none
          ∧ (2 : ℚ)
              ≤ (find_best_asana geTest simTest vecQ catalog
                  []).best_similarity))
      ∧ ((find_best_asana geTest simTest vecQ catalog []).best_similarity
            < 2 →
          (process_prompt geTest simTest (some chatTest)
              (some ("report.pdf", 2)) 2 catalog [] promptTest nowTest 0 0
              0).result.isNoMatch = true)) :=
  ⟨by decide,
    c1_threshold_gate geTest simTest (some chatTest) 2 catalog [] promptTest
      nowTest 0 0 0 vecQ "report.pdf" 2 (by decide)⟩

/-- Claim C4: on any chat-provider failure the narrative generator returns
exactly the fixed fallback string together with the all-zero metrics record,
and a matched request (renderer succeeding) still completes as a success
response carrying the fallback as its final comment — a narrative failure
never fails the request. -/
theorem c4_narrative_fail_soft (a : YogaAsana) (pdf_filename : String)
    (pdf_report_time : ℚ) (hE : get_embedding user_prompt = some pe)
    (hb : (find_best_asana get_embedding sim pe asanas cache).best_asana
        = some a)
    (hth : threshold
        ≤ (find_best_asana get_embedding sim pe asanas cache).best_similarity) :
    generate_final_comment none network_latency
        = (fallback_comment, zero_metrics)
    ∧ (process_prompt get_embedding sim none
        (some (pdf_filename, pdf_report_time)) threshold asanas cache
        user_prompt now network_latency embed_match_duration
        response_time).result.isSuccess = true
    ∧ (process_prompt get_embedding sim none
        (some (pdf_filename, pdf_report_time)) threshold asanas cache
        user_prompt now network_latency embed_match_duration
        response_time).result.finalComment = some fallback_comment := by
  have h := process_prompt_matched get_embedding sim none
    (some (pdf_filename, pdf_report_time)) threshold asanas cache user_prompt
    now network_latency embed_match_duration response_time pe hE a
    pdf_filename pdf_report_time hb hth rfl
  refine ⟨rfl, ?_, ?_⟩ <;> rw [h] <;> rfl

/-- Witness for C4: the chat provider is down, the query matches `asanaB`
above threshold 1, and the success response carries the fallback comment. -/
theorem c4_narrative_fail_soft_witness :
    (geTest promptTest = some vecQ
      ∧ (find_best_asana geTest simTest vecQ catalog []).best_asana
          = some asanaB
      ∧ (1 : ℚ)
          ≤ (find_best_asana geTest simTest vecQ catalog []).best_similarity)
    ∧ (generate_final_comment none 0 = (fallback_comment, zero_metrics)
      ∧ (process_prompt geTest simTest none (some ("report.pdf", 2)) 1 catalog
          [] promptTest nowTest 0 0 0).result.isSuccess = true
      ∧ (process_prompt geTest simTest none (some ("report.pdf", 2)) 1 catalog
          [] promptTest nowTest 0 0 0).result.finalComment
          = some fallback_comment) :=
  ⟨⟨by decide, by decide, by decide⟩,
    c4_narrative_fail_soft geTest simTest 1 catalog [] promptTest nowTest 0 0
      0 vecQ asanaB "report.pdf" 2 (by decide) (by decide) (by decide)⟩

/-- Claim C5: when the query embedding cannot be obtained the request fails
with the HTTP 500 error, no metrics record is emitted, no collaborator is
invoked, the cache is untouched, and neither a match nor a no-match response
is produced. -/
theorem c5_query_embedding_fatal (hE : get_embedding user_prompt = none) :
    process_prompt get_embedding sim chat render threshold asanas cache
        user_prompt now network_latency embed_match_duration response_time
      = ⟨.httpError 500 embed_error_detail, [], 0, 0, cache⟩
    ∧ (process_prompt get_embedding sim chat render threshold asanas cache
        user_prompt now network_latency embed_match_duration
        response_time).result.isSuccess = false
    ∧ (process_prompt get_embedding sim chat render threshold asanas cache
        user_prompt now network_latency embed_match_duration
        response_time).result.isNoMatch = false := by
  have h := process_prompt_embed_fail get_embedding sim chat render threshold
    asanas cache user_prompt now network_latency embed_match_duration
    response_time hE
  refine ⟨h, ?_, ?_⟩ <;> rw [h] <;> rfl

/-- Witness for C5: the always-failing provider yields the hard error. -/
theorem c5_query_embedding_fatal_witness :
    geFail promptTest = none
    ∧ (process_prompt geFail simTest (some chatTest) (some ("report.pdf", 2))
        1 catalog [] promptTest nowTest 0 0 0
      = ⟨.httpError 500 embed_error_detail, [], 0, 0, []⟩
      ∧ (process_prompt geFail simTest (some chatTest) (some ("report.pdf", 2))
          1 catalog [] promptTest nowTest 0 0 0).result.isSuccess = false
      ∧ (process_prompt geFail simTest (some chatTest) (some ("report.pdf", 2))
          1 catalog [] promptTest nowTest 0 0 0).result.isNoMatch = false) :=
  ⟨by decide,
    c5_query_embedding_fatal geFail simTest (some chatTest)
      (some ("report.pdf", 2)) 1 catalog [] promptTest nowTest 0 0 0
      (by decide)⟩

/-- Claim C6: a request decided NO_MATCH emits exactly one metrics record,
whose category field is the literal `"no_route"` and whose generation and
render metrics are all zero, returns the no-match response shape, and never
invokes the narrative generator or the document renderer (both call counters
stay at zero). -/
theorem c6_no_match_frame (hE : get_embedding user_prompt = some pe)
    (hnm : (find_best_asana get_embedding sim pe asanas cache).best_asana
        = none
      ∨ (find_best_asana get_embedding sim pe asanas cache).best_similarity
          < threshold) :
    (process_prompt get_embedding sim chat render threshold asanas cache
        user_prompt now network_latency embed_match_duration
        response_time).result = .noMatch no_match_message
    ∧ (process_prompt get_embedding sim chat render threshold asanas cache
        user_prompt now network_latency embed_match_duration
        response_time).records
        = [no_route_record user_prompt now
            (find_best_asana get_embedding sim pe asanas cache).best_similarity
            embed_match_duration]
    ∧ (no_route_record user_prompt now
        (find_best_asana get_embedding sim pe asanas cache).best_similarity
        embed_match_duration).best_asana_selected = "no_route"
    ∧ (no_route_record user_prompt now
        (find_best_asana get_embedding sim pe asanas cache).best_similarity
        embed_match_duration).total_duration = 0
    ∧ (no_route_record user_prompt now
        (find_best_asana get_embedding sim pe asanas cache).best_similarity
        embed_match_duration).load_duration = 0
    ∧ (no_route_record user_prompt now
        (find_best_asana get_embedding sim pe asanas cache).best_similarity
        embed_match_duration).prompt_eval_count = 0
    ∧ (no_route_record user_prompt now
        (find_best_asana get_embedding sim pe asanas cache).best_similarity
        embed_match_duration).prompt_eval_duration = 0
    ∧ (no_route_record user_prompt now
        (find_best_asana get_embedding sim pe asanas cache).best_similarity
        embed_match_duration).eval_count = 0
    ∧ (no_route_record user_prompt now
        (find_best_asana get_embedding sim pe asanas cache).best_similarity
        embed_match_duration).eval_duration = 0
    ∧ (no_route_record user_prompt now
        (find_best_asana get_embedding sim pe asanas cache).best_similarity
        embed_match_duration).tokens_per_second = 0
    ∧ (no_route_record user_prompt now
        (find_best_asana get_embedding sim pe asanas cache).best_similarity
        embed_match_duration).pdf_report_time = 0
    ∧ (no_route_record user_prompt now
        (find_best_asana get_embedding sim pe asanas cache).best_similarity
        embed_match_duration).network_latency = 0
    ∧ (no_route_record user_prompt now
        (find_best_asana get_embedding sim pe asanas cache).best_similarity
        embed_match_duration).total_response_time_sec = 0
    ∧ (process_prompt get_embedding sim chat render threshold asanas cache
        user_prompt now network_latency embed_match_duration
        response_time).chat_calls = 0
    ∧ (process_prompt get_embedding sim chat render threshold asanas cache
        user_prompt now network_latency embed_match_duration
        response_time).render_calls = 0 := by
  have h := process_prompt_no_match get_embedding sim chat render threshold
    asanas cache user_prompt now network_latency embed_match_duration
    response_time pe hE hnm
  rw [h]
  exact ⟨rfl, rfl, rfl, rfl, rfl, rfl, rfl, rfl, rfl, rfl, rfl, rfl, rfl,
    rfl, rfl⟩

/-- Witness for C6: with threshold 5 (above the best score 2) the request is
decided NO_MATCH and emits its single `no_route` record. -/
theorem c6_no_match_frame_witness :
    (geTest promptTest = some vecQ
      ∧ (find_best_asana geTest simTest vecQ catalog []).best_similarity < 5)
    ∧ ((process_prompt geTest simTest (some chatTest) (some ("report.pdf", 2))
          5 catalog [] promptTest nowTest 0 0 0).result
        = .noMatch no_match_message
      ∧ (process_prompt geTest simTest (some chatTest) (some ("report.pdf", 2))
          5 catalog [] promptTest nowTest 0 0 0).chat_calls = 0
      ∧ (process_prompt geTest simTest (some chatTest) (some ("report.pdf", 2))
          5 catalog [] promptTest nowTest 0 0 0).render_calls = 0) :=
  have h := c6_no_match_frame geTest simTest (some chatTest)
    (some ("report.pdf", 2)) 5 catalog [] promptTest nowTest 0 0 0 vecQ
    (by decide) (Or.inr (by decide))
  ⟨⟨by decide, by decide⟩,
    ⟨h.1, h.2.2.2.2.2.2.2.2.2.2.2.2.2.1, h.2.2.2.2.2.2.2.2.2.2.2.2.2.2⟩⟩

/-- Claim C7: once a match was found, a failure of the document renderer
fails the whole request with the HTTP 500 error — no success response and no
partial no-match response is returned, and no metrics record is written. -/
theorem c7_render_failure_fatal (a : YogaAsana)
    (hE : get_embedding user_prompt = some pe)
    (hb : (find_best_asana get_embedding sim pe asanas cache).best_asana
        = some a)
    (hth : threshold
        ≤ (find_best_asana get_embedding sim pe asanas cache).best_similarity) :
    (process_prompt get_embedding sim chat none threshold asanas cache
        user_prompt now network_latency embed_match_duration
        response_time).result = .httpError 500 pdf_error_detail
    ∧ (process_prompt get_embedding sim chat none threshold asanas cache
        user_prompt now network_latency embed_match_duration
        response_time).result.isSuccess = false
    ∧ (process_prompt get_embedding sim chat none threshold asanas cache
        user_prompt now network_latency embed_match_duration
        response_time).result.isNoMatch = false
    ∧ (process_prompt get_embedding sim chat none threshold asanas cache
        user_prompt now network_latency embed_match_duration
        response_time).records = [] := by
  have h := process_prompt_matched_render_fail get_embedding sim chat none
    threshold asanas cache user_prompt now network_latency
    embed_match_duration response_time pe hE a hb hth rfl
  refine ⟨?_, ?_, ?_, ?_⟩ <;> rw [h] <;> rfl

/-- Witness for C7: the renderer is down, the query matches `asanaB` above
threshold 1, and the whole request fails with the PDF error. -/
theorem c7_render_failure_fatal_witness :
    (geTest promptTest = some vecQ
      ∧ (find_best_asana geTest simTest vecQ catalog []).best_asana
          = some asanaB
      ∧ (1 : ℚ)
          ≤ (find_best_asana geTest simTest vecQ catalog []).best_similarity)
    ∧ ((process_prompt geTest simTest (some chatTest) none 1 catalog []
          promptTest nowTest 0 0 0).result = .httpError 500 pdf_error_detail
      ∧ (process_prompt geTest simTest (some chatTest) none 1 catalog []
          promptTest nowTest 0 0 0).result.isSuccess = false
      ∧ (process_prompt geTest simTest (some chatTest) none 1 catalog []
          promptTest nowTest 0 0 0).result.isNoMatch = false
      ∧ (process_prompt geTest simTest (some chatTest) none 1 catalog []
          promptTest nowTest 0 0 0).records = []) :=
  ⟨⟨by decide, by decide, by decide⟩,
    c7_render_failure_fatal geTest simTest (some chatTest) 1 catalog []
      promptTest nowTest 0 0 0 vecQ asanaB (by decide) (by decide)
      (by decide)⟩

/-- Claim C10: the score written into the single NO_MATCH metrics record is
the computed best score, except that the sentinel `-1` is sanitised to `0`
before logging; when the best score is not the sentinel it is logged
unaltered. -/
theorem c10_no_match_score_sanitized
    (hE : get_embedding user_prompt = some pe)
    (hnm : (find_best_asana get_embedding sim pe asanas cache).best_asana
        = none
      ∨ (find_best_asana get_embedding sim pe asanas cache).best_similarity
          < threshold) :
    ((process_prompt get_embedding sim chat render threshold asanas cache
          user_prompt now network_latency embed_match_duration
          response_time).records.map fun r => r.cosine_similarity_score)
        = [if (find_best_asana get_embedding sim pe asanas
              cache).best_similarity ≠ -1 then
            (find_best_asana get_embedding sim pe asanas cache).best_similarity
          else 0]
    ∧ ((find_best_asana get_embedding sim pe asanas cache).best_similarity
          = -1 →
        ((process_prompt get_embedding sim chat render threshold asanas cache
            user_prompt now network_latency embed_match_duration
            response_time).records.map fun r => r.cosine_similarity_score)
          = [0])
    ∧ ((find_best_asana get_embedding sim pe asanas cache).best_similarity
          ≠ -1 →
        ((process_prompt get_embedding sim chat render threshold asanas cache
            user_prompt now network_latency embed_match_duration
            response_time).records.map fun r => r.cosine_similarity_score)
          = [(find_best_asana get_embedding sim pe asanas
              cache).best_similarity]) := by
  have h := process_prompt_no_match get_embedding sim chat render threshold
    asanas cache user_prompt now network_latency embed_match_duration
    response_time pe hE hnm
  rw [h]
  refine ⟨rfl, ?_, ?_⟩
  · intro hm1
    simp [no_route_record, hm1]
  · intro hm1
    simp [no_route_record, hm1]

/-- Witness for C10: a NO_MATCH decision at threshold 5 logs the unaltered
best score 2 (not the sentinel), exercising the sanitisation conditional. -/
theorem c10_no_match_score_sanitized_witness :
    (geTest promptTest = some vecQ
      ∧ (find_best_asana geTest simTest vecQ catalog []).best_similarity < 5)
    ∧ ((process_prompt geTest simTest (some chatTest) (some ("report.pdf", 2))
          5 catalog [] promptTest nowTest 0 0 0).records.map fun r =>
            r.cosine_similarity_score)
        = [if (find_best_asana geTest simTest vecQ catalog
              []).best_similarity ≠ -1 then
            (find_best_asana geTest simTest vecQ catalog []).best_similarity
          else 0] :=
  ⟨⟨by decide, by decide⟩,
    (c10_no_match_score_sanitized geTest simTest (some chatTest)
        (some ("report.pdf", 2)) 5 catalog [] promptTest nowTest 0 0 0 vecQ
        (by decide) (Or.inr (by decide))).1⟩

end ProcessBranches

end Mood
